import Mathlib

/-!
Formal model of the mcp_portman port-registry server
(`src/mcp_portman/server.py`).

The Python module keeps a JSON file mapping `str(port)` to a registration
record and exposes five operations: `get_free_port`, `lookup_by_port`,
`lookup_by_application`, `register_port`, `unregister_port`.

Modelling choices:
* Registry keys are `str(port)` in the file; `str` is injective on integers,
  so the in-memory dict is modelled as an association list
  `List (Int × Registration)` keyed by the port integer.  Python ints may be
  negative, hence `Int`.
* `is_port_available` performs a bind/release socket probe; it is modelled as
  an explicit point-in-time OS state `probe : Int → Bool` passed to each
  operation (the spec calls a fixed registry plus probe state one "OS state").
* Each operation in the source loads the registry itself and saves it when it
  mutates; the model passes the loaded registry in and returns the registry
  that is saved (state passing).
* `datetime.now().isoformat()` is modelled as an explicit `now : String`
  argument.
* The file-level behaviour of `load_registry` (JSON decoding and its error
  recovery) is modelled separately on a small JSON value type, and the write
  pattern of `save_registry` as a trace of file-system operations.
-/

namespace McpPortman

/-- One registration record, the value stored per port in the registry file:
`app_name`, `description` and `registered_at` (the `isoformat` timestamp). -/
structure Registration where
  app_name : String
  description : String
  registered_at : String
deriving DecidableEq, Repr

/-- The in-memory registry: Python dict from `str(port)` to record, modelled
as an association list keyed by the port integer (first-match lookup,
which agrees with dict lookup since dict keys are unique). -/
abbrev Registry := List (Int × Registration)

/-- `PORT_RANGE_START = 1024` from the source. -/
def PORT_RANGE_START : Int := 1024

/-- `PORT_RANGE_END = 49151` from the source. -/
def PORT_RANGE_END : Int := 49151

/-! ## load_registry / save_registry -/

/-- JSON values as returned by `json.load`. -/
inductive Json where
  | null
  | bool (b : Bool)
  | num (n : Int)
  | str (s : String)
  | arr (elems : List Json)
  | obj (fields : List (String × Json))

/-- What reading the registry file can yield, as distinguished by
`load_registry`: the file does not exist, `open`/read raises `IOError`,
`json.load` raises `JSONDecodeError`, or a JSON value is parsed. -/
inductive FileRead where
  | absent
  | readError
  | parseError
  | parsed (j : Json)

/-- `load_registry`: returns `{}` when the file is missing and on
`JSONDecodeError` / `IOError`; any successfully parsed JSON value is
returned as-is, with no structural validation. -/
def load_registry : FileRead → Json
  | FileRead.absent => Json.obj []
  | FileRead.readError => Json.obj []
  | FileRead.parseError => Json.obj []
  | FileRead.parsed j => j

/-- A JSON value is a registration record when it is an object whose
`app_name`, `description` and `registered_at` fields are strings. -/
def isRegistrationRecord : Json → Bool
  | Json.obj fields =>
      (match fields.lookup ("app_name") with
        | some (Json.str _) => true
        | _ => false) &&
      (match fields.lookup ("description") with
        | some (Json.str _) => true
        | _ => false) &&
      (match fields.lookup ("registered_at") with
        | some (Json.str _) => true
        | _ => false)
  | _ => false

/-- A JSON value is a registry mapping when it is an object mapping
port strings (string forms of integers) to registration records. -/
def isRegistryMapping : Json → Bool
  | Json.obj fields =>
      fields.all (fun kv => kv.1.toInt?.isSome && isRegistrationRecord kv.2)
  | _ => false

/-- File-system level steps, enough to describe how `save_registry` writes. -/
inductive FsOp where
  | openTrunc (path : String)
  | writeData (path : String) (data : String)
  | rename (src : String) (tgt : String)
deriving DecidableEq, Repr

/-- The registry file path (`Path.home() / ".mcp_portman_registry.json"`). -/
def REGISTRY_FILE : String := "~/.mcp_portman_registry.json"

/-- `save_registry`: `open(REGISTRY_FILE, 'w')` truncates the registry file
in place, then `json.dump` writes the serialized registry into it.  The
trace records exactly these steps. -/
def save_registry_trace (data : String) : List FsOp :=
  [FsOp.openTrunc REGISTRY_FILE, FsOp.writeData REGISTRY_FILE data]

/-- Modelled from the spec: a save is an atomic replacement of `target`
when the content is written to a distinct temporary path and then renamed
into place. -/
def isAtomicReplace (tr : List FsOp) (target : String) : Bool :=
  match tr with
  | [FsOp.openTrunc tmp, FsOp.writeData tmp2 _, FsOp.rename src tgt] =>
      !(tmp == target) && (tmp2 == tmp) && (src == tmp) && (tgt == target)
  | _ => false

/-- True for trace steps that are renames. -/
def isRenameOp : FsOp → Bool
  | FsOp.rename _ _ => true
  | _ => false

/-! ## get_free_port -/

/-- Result dict of `get_free_port`: `port` (number or `None`) and a
status `message`. -/
structure FreePortResult where
  port : Option Int
  message : String
deriving DecidableEq, Repr

/-- The scan list `range(PORT_RANGE_START, PORT_RANGE_END + 1)`. -/
def portRange : List Int :=
  (List.range' PORT_RANGE_START.toNat
      (PORT_RANGE_END.toNat - PORT_RANGE_START.toNat + 1)).map
    (fun n : Nat => (n : Int))

/-- `get_free_port(preferred_port)`: with a preferred port, range-check it,
then report it available only when it is unregistered and probe-available,
otherwise list the applicable reasons; with no preferred port, scan the
range in ascending order for the first unregistered, probe-available port. -/
def get_free_port (registry : Registry) (probe : Int → Bool)
    (preferred_port : Option Int) : FreePortResult :=
  match preferred_port with
  | some p =>
      if p < PORT_RANGE_START ∨ p > PORT_RANGE_END then
        { port := none
          message := "Port " ++ toString p ++
            " is outside valid range (1024-49151)" }
      else if (registry.lookup p).isNone && probe p then
        { port := some p
          message := "Port " ++ toString p ++ " is available" }
      else
        let reason : List String :=
          (match registry.lookup p with
            | some info => ["registered to '" ++ info.app_name ++ "'"]
            | none => []) ++
          (if probe p then [] else ["in use by OS"])
        { port := none
          message := "Port " ++ toString p ++ " is not available (" ++
            String.intercalate (", ") reason ++ ")" }
  | none =>
      match portRange.find? (fun port => (registry.lookup port).isNone && probe port) with
      | some port =>
          { port := some port
            message := "Found available port " ++ toString port }
      | none =>
          { port := none
            message := "No free ports available in range" }

/-! ## lookup_by_port -/

/-- Result dict of `lookup_by_port`.  The registered branch carries the
record fields and no `message`; the unregistered branch carries a `message`
and no record fields.  Both carry `port`, `registered`, `os_available`. -/
structure PortLookupResult where
  port : Int
  registered : Bool
  app_name : Option String
  description : Option String
  registered_at : Option String
  os_available : Bool
  message : Option String
deriving DecidableEq, Repr

/-- `lookup_by_port(port)`: report the registration record if present,
an explicit not-registered status otherwise; always include a freshly
probed `os_available` flag. -/
def lookup_by_port (registry : Registry) (probe : Int → Bool)
    (port : Int) : PortLookupResult :=
  match registry.lookup port with
  | some info =>
      { port := port
        registered := true
        app_name := some info.app_name
        description := some info.description
        registered_at := some info.registered_at
        os_available := probe port
        message := none }
  | none =>
      { port := port
        registered := false
        app_name := none
        description := none
        registered_at := none
        os_available := probe port
        message := some ("Port not registered in MCP Port Manager") }

/-! ## lookup_by_application -/

/-- One element of the `ports` list of `lookup_by_application`: the record
fields plus the port number and a fresh `os_available` flag. -/
structure PortInfo where
  port : Int
  app_name : String
  description : String
  registered_at : String
  os_available : Bool
deriving DecidableEq, Repr

/-- The per-match dict built in the loop of `lookup_by_application`:
`info.copy()` plus `port` and `os_available`. -/
def mkPortInfo (probe : Int → Bool) (e : Int × Registration) : PortInfo :=
  { port := e.1
    app_name := e.2.app_name
    description := e.2.description
    registered_at := e.2.registered_at
    os_available := probe e.1 }

/-- Result dict of `lookup_by_application`. -/
structure AppLookupResult where
  app_name : String
  ports : List PortInfo
  count : Nat
deriving DecidableEq, Repr

/-- `lookup_by_application(app_name)`: collect every entry whose
`app_name.lower()` equals the query's `lower()`, annotate with fresh
OS availability, and sort ascending by port number. -/
def lookup_by_application (registry : Registry) (probe : Int → Bool)
    (app_name : String) : AppLookupResult :=
  let app_name_lower := app_name.toLower
  let matching_ports :=
    (registry.filter (fun e => e.2.app_name.toLower == app_name_lower)).map
      (mkPortInfo probe)
  let sorted := matching_ports.mergeSort (fun a b => decide (a.port ≤ b.port))
  { app_name := app_name
    ports := sorted
    count := sorted.length }

/-! ## register_port -/

/-- Result dict of `register_port`.  The failure branches carry only
`success`, `message` and (for the already-registered branch) the existing
registration; the success branch carries the echoed fields and a fresh
`os_available` flag. -/
structure RegisterResult where
  success : Bool
  message : String
  port : Option Int
  app_name : Option String
  description : Option String
  os_available : Option Bool
  existing_registration : Option Registration
deriving DecidableEq, Repr

/-- `register_port(port, app_name, description)`: range-check, refuse with
the existing registration if the port is taken, otherwise append the new
record (with `registered_at := now`) and save.  Returns the result dict
together with the registry that is persisted (unchanged on failure). -/
def register_port (registry : Registry) (probe : Int → Bool) (now : String)
    (port : Int) (app_name : String) (description : String) :
    RegisterResult × Registry :=
  if port < PORT_RANGE_START ∨ port > PORT_RANGE_END then
    ({ success := false
       message := "Port " ++ toString port ++
         " is outside valid range (1024-49151)"
       port := none
       app_name := none
       description := none
       os_available := none
       existing_registration := none }, registry)
  else
    match registry.lookup port with
    | some existing =>
        ({ success := false
           message := "Port " ++ toString port ++
             " is already registered to \"" ++ existing.app_name ++ "\""
           port := none
           app_name := none
           description := none
           os_available := none
           existing_registration := some existing }, registry)
    | none =>
        let reg : Registration :=
          { app_name := app_name
            description := description
            registered_at := now }
        ({ success := true
           message := "Successfully registered port " ++ toString port ++
             " to \"" ++ app_name ++ "\""
           port := some port
           app_name := some app_name
           description := some description
           os_available := some (probe port)
           existing_registration := none }, registry ++ [(port, reg)])

/-! ## unregister_port -/

/-- Result dict of `unregister_port`; `removed_registration` carries the
removed record together with its port, as `removed_info` does. -/
structure UnregisterResult where
  success : Bool
  message : String
  removed_registration : Option (Int × Registration)
deriving DecidableEq, Repr

/-- `unregister_port(port)`: refuse when the port is not registered,
otherwise delete the entry, save, and return the removed record.  Returns
the result dict together with the registry that is persisted. -/
def unregister_port (registry : Registry) (port : Int) :
    UnregisterResult × Registry :=
  match registry.lookup port with
  | none =>
      ({ success := false
         message := "Port " ++ toString port ++ " is not registered"
         removed_registration := none }, registry)
  | some info =>
      ({ success := true
         message := "Successfully unregistered port " ++ toString port
         removed_registration := some (port, info) },
       registry.filter (fun e => !(e.1 == port)))

/-- Substring containment on strings, stated on the underlying character
lists: `sub` occurs contiguously inside `s`. -/
def strContains (s sub : String) : Prop :=
  ∃ pre suf, s.data = pre ++ sub.data ++ suf

/-! ## Helper lemmas -/

theorem strContains_of_parts (a b : String) {s sub : String}
    (h : s = a ++ sub ++ b) : strContains s sub := by
  refine ⟨a.data, b.data, ?_⟩
  simp [h, String.data_append, List.append_assoc]

theorem portRange_eq :
    portRange = (List.range' 1024 48128).map (fun n : Nat => (n : Int)) := rfl

theorem mem_portRange {p : Int} :
    p ∈ portRange ↔ PORT_RANGE_START ≤ p ∧ p ≤ PORT_RANGE_END := by
  rw [portRange_eq, List.mem_map]
  unfold PORT_RANGE_START PORT_RANGE_END
  constructor
  · rintro ⟨m, hm, rfl⟩
    rw [List.mem_range'_1] at hm
    omega
  · rintro ⟨h1, h2⟩
    refine ⟨p.toNat, ?_, ?_⟩
    · rw [List.mem_range'_1]
      omega
    · omega

theorem portRange_pairwise : portRange.Pairwise (fun a b => a < b) := by
  rw [portRange_eq, List.pairwise_map]
  exact (List.pairwise_lt_range' 1024 48128 1 (by omega)).imp
    (fun h => by exact_mod_cast h)

theorem find?_min_of_sorted {l : List Int} {pred : Int → Bool} {p : Int}
    (hl : l.Pairwise (fun a b => a < b)) (hp : l.find? pred = some p) :
    ∀ q ∈ l, pred q = true → p ≤ q := by
  induction l with
  | nil => simp at hp
  | cons a t ih =>
    rw [List.find?_cons] at hp
    rcases List.pairwise_cons.mp hl with ⟨ha, ht⟩
    cases hpa : pred a with
    | true =>
        rw [hpa] at hp
        simp only [Option.some.injEq] at hp
        subst hp
        intro q hq _
        rcases List.mem_cons.mp hq with rfl | hq
        · exact le_refl _
        · exact le_of_lt (ha q hq)
    | false =>
        rw [hpa] at hp
        intro q hq hpq
        rcases List.mem_cons.mp hq with rfl | hq
        · rw [hpa] at hpq; exact absurd hpq (by simp)
        · exact ih ht hp q hq hpq

theorem lookup_filter_self (l : Registry) (p : Int) :
    List.lookup p (l.filter (fun e => !(e.1 == p))) = none := by
  induction l with
  | nil => rfl
  | cons a t ih =>
    obtain ⟨k, v⟩ := a
    rw [List.filter_cons]
    cases hap : ((k, v).1 == p) with
    | true => simpa [hap] using ih
    | false =>
        have hpa : (p == k) = false := by
          simp only [beq_eq_false_iff_ne] at hap ⊢
          exact fun h => hap h.symm
        simpa [hap, List.lookup_cons, hpa] using ih

theorem lookup_filter_ne (l : Registry) {p q : Int} (hqp : q ≠ p) :
    List.lookup q (l.filter (fun e => !(e.1 == p))) = List.lookup q l := by
  induction l with
  | nil => rfl
  | cons a t ih =>
    obtain ⟨k, v⟩ := a
    rw [List.filter_cons]
    cases hap : ((k, v).1 == p) with
    | true =>
        have hqk : (q == k) = false := by
          simp only [beq_iff_eq] at hap
          simp only [beq_eq_false_iff_ne]
          exact fun h => hqp (h.trans hap)
        simp only [hap, Bool.not_true]
        rw [if_neg (by decide)]
        rw [ih, List.lookup_cons, hqk]
    | false =>
        simp only [hap, Bool.not_false]
        rw [if_pos trivial]
        rw [List.lookup_cons, List.lookup_cons]
        cases hqa : (q == k) with
        | true => rfl
        | false => simpa using ih

theorem lookup_singleton_self (p : Int) (r : Registration) :
    List.lookup p [(p, r)] = some r := by
  rw [List.lookup_cons]
  simp

theorem strContains_parts {s : String} (a sub b : String)
    (h : s.data = a.data ++ (sub.data ++ b.data)) : strContains s sub :=
  ⟨a.data, b.data, by rw [h, List.append_assoc]⟩

theorem range_cond_false {p : Int}
    (hrange : PORT_RANGE_START ≤ p ∧ p ≤ PORT_RANGE_END) :
    ¬(p < PORT_RANGE_START ∨ p > PORT_RANGE_END) := by
  simp only [not_or, not_lt, gt_iff_lt]
  exact ⟨hrange.1, hrange.2⟩

theorem register_port_free (registry : Registry) (probe : Int → Bool)
    (now : String) (p : Int) (app desc : String)
    (hrange : PORT_RANGE_START ≤ p ∧ p ≤ PORT_RANGE_END)
    (hfree : registry.lookup p = none) :
    register_port registry probe now p app desc =
      ({ success := true
         message := "Successfully registered port " ++ toString p ++
           " to \"" ++ app ++ "\""
         port := some p
         app_name := some app
         description := some desc
         os_available := some (probe p)
         existing_registration := none },
       registry ++ [(p, { app_name := app
                          description := desc
                          registered_at := now })]) := by
  unfold register_port
  rw [if_neg (range_cond_false hrange), hfree]

/-! ## Claims -/

/-- C1, corrected.  `load_registry` substitutes the empty registry when the
file is absent, unreadable, or fails JSON parsing — and in exactly those
cases (besides a file that really holds the empty mapping); a value that
parses as JSON is returned as-is, with no structural validation, so a
non-mapping JSON value is passed through to the caller unchanged. -/
theorem C1_load_registry_recovery :
    (∀ fr : FileRead,
      load_registry fr = Json.obj [] ↔
        (fr = FileRead.absent ∨ fr = FileRead.readError ∨
          fr = FileRead.parseError ∨ fr = FileRead.parsed (Json.obj []))) ∧
    (∀ j : Json, load_registry (FileRead.parsed j) = j) := by
  constructor
  · intro fr
    cases fr <;> simp [load_registry]
  · intro j
    rfl

/-- C1 counterexample: the JSON value `[]` parses but is not a mapping from
port strings to registration records; `load_registry` returns it unchanged
instead of substituting the empty registry, so the caller does not receive
a valid mapping. -/
theorem C1_counterexample :
    isRegistryMapping (Json.arr []) = false ∧
    load_registry (FileRead.parsed (Json.arr [])) = Json.arr [] ∧
    isRegistryMapping (load_registry (FileRead.parsed (Json.arr []))) = false :=
  ⟨rfl, rfl, rfl⟩

/-- C2, corrected.  `register_port` performs no validation of `app_name`:
for every in-range unregistered port it succeeds and persists a
registration holding exactly the supplied `app_name`, whatever string that
is (including the empty string). -/
theorem C2_register_any_app_name (registry : Registry) (probe : Int → Bool)
    (now : String) (p : Int) (app desc : String)
    (hrange : PORT_RANGE_START ≤ p ∧ p ≤ PORT_RANGE_END)
    (hfree : registry.lookup p = none) :
    (register_port registry probe now p app desc).1.success = true ∧
    (register_port registry probe now p app desc).2 =
      registry ++ [(p, { app_name := app
                         description := desc
                         registered_at := now })] := by
  rw [register_port_free registry probe now p app desc hrange hfree]
  exact ⟨rfl, rfl⟩

/-- C2 witness: registering port 8081 with the empty application name. -/
theorem C2_register_any_app_name_witness :
    (register_port [] (fun _ => true) ("t0") 8081 ("") ("d")).1.success = true ∧
    (register_port [] (fun _ => true) ("t0") 8081 ("") ("d")).2 =
      [] ++ [((8081 : Int), { app_name := ""
                              description := "d"
                              registered_at := "t0" })] :=
  C2_register_any_app_name [] (fun _ => true) ("t0") 8081 ("") ("d")
    ⟨by decide, by decide⟩ rfl

/-- C2 counterexample: `register_port(8080, "", "d")` on the empty registry
succeeds and stores a registration whose `app_name` is the empty string,
so a registry entry with empty `app_name` is reachable. -/
theorem C2_counterexample :
    (register_port [] (fun _ => true) ("t0") 8080 ("") ("d")).1.success = true ∧
    List.lookup 8080
        (register_port [] (fun _ => true) ("t0") 8080 ("") ("d")).2 =
      some { app_name := ""
             description := "d"
             registered_at := "t0" } := by
  constructor
  · rfl
  · rfl

/-- C7, confirmed.  For a port outside `[1024, 49151]`, `get_free_port` and
`register_port` both report the out-of-range condition as an ordinary
result (null port / `success = false` with the range message), and
`register_port` leaves the registry unchanged (`get_free_port` never
writes the registry at all, as its model is read-only). -/
theorem C7_out_of_range (registry : Registry) (probe : Int → Bool)
    (now : String) (p : Int) (app desc : String)
    (h : p < PORT_RANGE_START ∨ p > PORT_RANGE_END) :
    (get_free_port registry probe (some p)).port = none ∧
    (get_free_port registry probe (some p)).message =
      "Port " ++ toString p ++ " is outside valid range (1024-49151)" ∧
    (register_port registry probe now p app desc).1.success = false ∧
    (register_port registry probe now p app desc).1.message =
      "Port " ++ toString p ++ " is outside valid range (1024-49151)" ∧
    (register_port registry probe now p app desc).2 = registry := by
  simp only [get_free_port, register_port]
  rw [if_pos h, if_pos h]
  exact ⟨rfl, rfl, rfl, rfl, rfl⟩

/-- C7 witness: port 99 is below the range. -/
theorem C7_out_of_range_witness :
    (get_free_port [] (fun _ => true) (some 99)).port = none ∧
    (get_free_port [] (fun _ => true) (some 99)).message =
      "Port " ++ toString (99 : Int) ++ " is outside valid range (1024-49151)" ∧
    (register_port [] (fun _ => true) ("t0") 99 ("a") ("d")).1.success = false ∧
    (register_port [] (fun _ => true) ("t0") 99 ("a") ("d")).1.message =
      "Port " ++ toString (99 : Int) ++ " is outside valid range (1024-49151)" ∧
    (register_port [] (fun _ => true) ("t0") 99 ("a") ("d")).2 = [] :=
  C7_out_of_range [] (fun _ => true) ("t0") 99 ("a") ("d") (Or.inl (by decide))

/-- C10, corrected.  `save_registry` opens the registry file itself in
write mode (truncating it in place) and writes the serialized registry
directly into it: its trace is never an atomic write-temp-then-rename
replacement, performs no rename step at all, and writes straight to the
registry file. -/
theorem C10_save_not_atomic :
    ∀ data : String,
      isAtomicReplace (save_registry_trace data) REGISTRY_FILE = false ∧
      (save_registry_trace data).all (fun op => !(isRenameOp op)) = true ∧
      FsOp.writeData REGISTRY_FILE data ∈ save_registry_trace data := by
  intro data
  refine ⟨rfl, rfl, ?_⟩
  unfold save_registry_trace
  exact List.mem_cons_of_mem _ (List.mem_singleton.mpr rfl)

/-- C10 counterexample: a concrete save (content `"x"`) is not an atomic
temp-write-plus-rename replacement of the registry file. -/
theorem C10_counterexample :
    isAtomicReplace (save_registry_trace ("x")) REGISTRY_FILE = false ∧
    save_registry_trace ("x") =
      [FsOp.openTrunc REGISTRY_FILE, FsOp.writeData REGISTRY_FILE ("x")] :=
  ⟨rfl, rfl⟩

/-- C5, confirmed.  When a port (necessarily in range, per the data-model
invariant that every registration's port lies in `[1024, 49151]`) already
has a registration, `register_port` fails, reports the already-registered
message, attaches the existing registration to the result, and returns the
registry unchanged — so the original holder's fields are preserved
exactly. -/
theorem C5_no_double_claim (registry : Registry) (probe : Int → Bool)
    (now : String) (p : Int) (app desc : String) (existing : Registration)
    (hrange : PORT_RANGE_START ≤ p ∧ p ≤ PORT_RANGE_END)
    (hreg : registry.lookup p = some existing) :
    (register_port registry probe now p app desc).1.success = false ∧
    (register_port registry probe now p app desc).1.existing_registration =
      some existing ∧
    (register_port registry probe now p app desc).1.message =
      "Port " ++ toString p ++ " is already registered to \"" ++
        existing.app_name ++ "\"" ∧
    (register_port registry probe now p app desc).2 = registry := by
  unfold register_port
  rw [if_neg (range_cond_false hrange), hreg]
  exact ⟨rfl, rfl, rfl, rfl⟩

/-- C5 witness: port 9000 held by "svc"; a second registration attempt by
"other" fails, exposes the existing registration, and leaves the registry
as it was. -/
theorem C5_no_double_claim_witness :
    (register_port [((9000 : Int), { app_name := "svc"
                                     description := "x"
                                     registered_at := "t1" })]
        (fun _ => true) ("t2") 9000 ("other") ("d")).1.success = false ∧
    (register_port [((9000 : Int), { app_name := "svc"
                                     description := "x"
                                     registered_at := "t1" })]
        (fun _ => true) ("t2") 9000 ("other") ("d")).1.existing_registration =
      some { app_name := "svc", description := "x", registered_at := "t1" } ∧
    (register_port [((9000 : Int), { app_name := "svc"
                                     description := "x"
                                     registered_at := "t1" })]
        (fun _ => true) ("t2") 9000 ("other") ("d")).1.message =
      "Port " ++ toString (9000 : Int) ++ " is already registered to \"" ++
        ("svc" : String) ++ "\"" ∧
    (register_port [((9000 : Int), { app_name := "svc"
                                     description := "x"
                                     registered_at := "t1" })]
        (fun _ => true) ("t2") 9000 ("other") ("d")).2 =
      [((9000 : Int), { app_name := "svc"
                        description := "x"
                        registered_at := "t1" })] :=
  C5_no_double_claim [((9000 : Int), { app_name := "svc"
                                       description := "x"
                                       registered_at := "t1" })]
    (fun _ => true) ("t2") 9000 ("other") ("d")
    { app_name := "svc", description := "x", registered_at := "t1" }
    ⟨by decide, by decide⟩ rfl

/-- C8, confirmed.  `unregister_port` fails with the not-registered message
exactly when the port has no registration, leaving the registry unchanged;
otherwise it succeeds, reports the removed registration's full prior
content (port, app_name, description, registered_at), deletes exactly that
port's entry from the persisted registry, and leaves every other port's
entry untouched. -/
theorem C8_unregister (registry : Registry) (p : Int) :
    (registry.lookup p = none →
      unregister_port registry p =
        ({ success := false
           message := "Port " ++ toString p ++ " is not registered"
           removed_registration := none }, registry)) ∧
    (∀ info : Registration, registry.lookup p = some info →
      (unregister_port registry p).1.success = true ∧
      (unregister_port registry p).1.removed_registration = some (p, info) ∧
      (unregister_port registry p).1.message =
        "Successfully unregistered port " ++ toString p ∧
      List.lookup p (unregister_port registry p).2 = none ∧
      ∀ q : Int, q ≠ p →
        List.lookup q (unregister_port registry p).2 = List.lookup q registry) := by
  constructor
  · intro h
    unfold unregister_port
    rw [h]
  · intro info h
    unfold unregister_port
    rw [h]
    refine ⟨rfl, rfl, rfl, lookup_filter_self registry p, ?_⟩
    intro q hq
    exact lookup_filter_ne registry hq

/-- C8 witness: unregistering absent port 5000 fails and keeps the
registry; unregistering registered port 7000 succeeds and returns the
removed record. -/
theorem C8_unregister_witness :
    unregister_port [] 5000 =
      ({ success := false
         message := "Port " ++ toString (5000 : Int) ++ " is not registered"
         removed_registration := none }, []) ∧
    (unregister_port [((7000 : Int), { app_name := "a"
                                       description := "b"
                                       registered_at := "c" })] 7000).1.success = true ∧
    (unregister_port [((7000 : Int), { app_name := "a"
                                       description := "b"
                                       registered_at := "c" })] 7000).1.removed_registration =
      some ((7000 : Int), { app_name := "a"
                            description := "b"
                            registered_at := "c" }) ∧
    List.lookup (7000 : Int)
        (unregister_port [((7000 : Int), { app_name := "a"
                                           description := "b"
                                           registered_at := "c" })] 7000).2 = none :=
  ⟨(C8_unregister [] 5000).1 rfl,
    ((C8_unregister [((7000 : Int), { app_name := "a"
                                      description := "b"
                                      registered_at := "c" })] 7000).2
      { app_name := "a", description := "b", registered_at := "c" } rfl).1,
    ((C8_unregister [((7000 : Int), { app_name := "a"
                                      description := "b"
                                      registered_at := "c" })] 7000).2
      { app_name := "a", description := "b", registered_at := "c" } rfl).2.1,
    ((C8_unregister [((7000 : Int), { app_name := "a"
                                      description := "b"
                                      registered_at := "c" })] 7000).2
      { app_name := "a", description := "b", registered_at := "c" } rfl).2.2.2.1⟩

/-- C6, confirmed.  On an in-range unregistered port, registration succeeds
for every OS probe state (even one under which the port is not
probe-available); a subsequent `lookup_by_port` reports it registered with
the registered `app_name`, `description` and `registered_at`; and after
`unregister_port` a further `lookup_by_port` reports it unregistered. -/
theorem C6_roundtrip (registry : Registry) (probe probe2 probe3 : Int → Bool)
    (now : String) (p : Int) (app desc : String)
    (hrange : PORT_RANGE_START ≤ p ∧ p ≤ PORT_RANGE_END)
    (hfree : registry.lookup p = none) :
    (register_port registry probe now p app desc).1.success = true ∧
    (lookup_by_port (register_port registry probe now p app desc).2 probe2 p).registered
      = true ∧
    (lookup_by_port (register_port registry probe now p app desc).2 probe2 p).app_name
      = some app ∧
    (lookup_by_port (register_port registry probe now p app desc).2 probe2 p).description
      = some desc ∧
    (lookup_by_port (register_port registry probe now p app desc).2 probe2 p).registered_at
      = some now ∧
    (lookup_by_port
        (unregister_port (register_port registry probe now p app desc).2 p).2
        probe3 p).registered = false := by
  rw [register_port_free registry probe now p app desc hrange hfree]
  have hlook :
      List.lookup p
        (registry ++ [(p, ({ app_name := app
                             description := desc
                             registered_at := now } : Registration))]) =
        some { app_name := app, description := desc, registered_at := now } := by
    rw [List.lookup_append, hfree, lookup_singleton_self]
    rfl
  have hlb := hlook
  unfold lookup_by_port unregister_port
  rw [hlook]
  refine ⟨rfl, rfl, rfl, rfl, rfl, ?_⟩
  rw [lookup_filter_self]

/-- C6 witness: port 8090 registered to "App" under a probe that reports
every port OS-unavailable, then looked up, then unregistered. -/
theorem C6_roundtrip_witness :
    (register_port [] (fun _ => false) ("t0") 8090 ("App") ("desc")).1.success = true ∧
    (lookup_by_port (register_port [] (fun _ => false) ("t0") 8090 ("App") ("desc")).2
        (fun _ => false) 8090).registered = true ∧
    (lookup_by_port (register_port [] (fun _ => false) ("t0") 8090 ("App") ("desc")).2
        (fun _ => false) 8090).app_name = some ("App") ∧
    (lookup_by_port (register_port [] (fun _ => false) ("t0") 8090 ("App") ("desc")).2
        (fun _ => false) 8090).description = some ("desc") ∧
    (lookup_by_port (register_port [] (fun _ => false) ("t0") 8090 ("App") ("desc")).2
        (fun _ => false) 8090).registered_at = some ("t0") ∧
    (lookup_by_port
        (unregister_port (register_port [] (fun _ => false) ("t0") 8090 ("App") ("desc")).2
          8090).2
        (fun _ => false) 8090).registered = false :=
  C6_roundtrip [] (fun _ => false) (fun _ => false) (fun _ => false)
    ("t0") 8090 ("App") ("desc") ⟨by decide, by decide⟩ rfl

/-- C3, confirmed.  For an in-range preferred port that is not free
(registered, not probe-available, or both), `get_free_port` returns a null
port, and its message contains `registered to '<app>'` (with the holder's
name) whenever the port is registered and contains `in use by OS` whenever
the port is not probe-available — hence both reasons together when both
apply. -/
theorem C3_preferred_reasons (registry : Registry) (probe : Int → Bool) (p : Int)
    (hrange : PORT_RANGE_START ≤ p ∧ p ≤ PORT_RANGE_END)
    (hnotfree : registry.lookup p ≠ none ∨ probe p = false) :
    (get_free_port registry probe (some p)).port = none ∧
    (∀ info : Registration, registry.lookup p = some info →
      strContains (get_free_port registry probe (some p)).message
        ("registered to '" ++ info.app_name ++ "'")) ∧
    (probe p = false →
      strContains (get_free_port registry probe (some p)).message
        ("in use by OS")) := by
  have hc := range_cond_false hrange
  cases hl : registry.lookup p with
  | none =>
      have hpb : probe p = false := by
        rcases hnotfree with h | h
        · exact absurd hl h
        · exact h
      have hres : get_free_port registry probe (some p) =
          { port := none
            message := "Port " ++ toString p ++ " is not available (" ++
              ("in use by OS") ++ ")" } := by
        simp only [get_free_port]
        rw [if_neg hc, hl, hpb]
        rfl
      refine ⟨by rw [hres], ?_, ?_⟩
      · intro info hinfo
        exact absurd hinfo (by simp)
      · intro _
        rw [hres]
        refine strContains_parts
          ("Port " ++ toString p ++ " is not available (")
          ("in use by OS") (")") ?_
        simp [String.data_append]
  | some info =>
      cases hpb : probe p with
      | true =>
          have hres : get_free_port registry probe (some p) =
              { port := none
                message := "Port " ++ toString p ++ " is not available (" ++
                  ("registered to '" ++ info.app_name ++ "'") ++ ")" } := by
            simp only [get_free_port]
            rw [if_neg hc, hl, hpb]
            rfl
          refine ⟨by rw [hres], ?_, ?_⟩
          · intro info' hinfo
            simp only [Option.some.injEq] at hinfo
            subst hinfo
            rw [hres]
            refine strContains_parts
              ("Port " ++ toString p ++ " is not available (")
              ("registered to '" ++ info.app_name ++ "'") (")") ?_
            simp [String.data_append]
          · intro hpf
            exact absurd hpf (by simp)
      | false =>
          have hres : get_free_port registry probe (some p) =
              { port := none
                message := "Port " ++ toString p ++ " is not available (" ++
                  (("registered to '" ++ info.app_name ++ "'") ++ (", ") ++
                    ("in use by OS")) ++ ")" } := by
            simp only [get_free_port]
            rw [if_neg hc, hl, hpb]
            rfl
          refine ⟨by rw [hres], ?_, ?_⟩
          · intro info' hinfo
            simp only [Option.some.injEq] at hinfo
            subst hinfo
            rw [hres]
            refine strContains_parts
              ("Port " ++ toString p ++ " is not available (")
              ("registered to '" ++ info.app_name ++ "'")
              ((", ") ++ ("in use by OS") ++ (")")) ?_
            simp [String.data_append]
          · intro _
            rw [hres]
            refine strContains_parts
              ("Port " ++ toString p ++ " is not available (" ++
                ("registered to '" ++ info.app_name ++ "'") ++ (", "))
              ("in use by OS") (")") ?_
            simp [String.data_append]

/-- C3 witness: port 9000 registered to "svc" under a probe that reports it
OS-unavailable — both reasons appear in the message. -/
theorem C3_preferred_reasons_witness :
    (get_free_port [((9000 : Int), { app_name := "svc"
                                     description := "x"
                                     registered_at := "t1" })]
        (fun _ => false) (some 9000)).port = none ∧
    strContains
      (get_free_port [((9000 : Int), { app_name := "svc"
                                       description := "x"
                                       registered_at := "t1" })]
          (fun _ => false) (some 9000)).message
      ("registered to '" ++
        ({ app_name := "svc", description := "x",
           registered_at := "t1" } : Registration).app_name ++ "'") ∧
    strContains
      (get_free_port [((9000 : Int), { app_name := "svc"
                                       description := "x"
                                       registered_at := "t1" })]
          (fun _ => false) (some 9000)).message
      ("in use by OS") :=
  ⟨(C3_preferred_reasons [((9000 : Int), { app_name := "svc"
                                           description := "x"
                                           registered_at := "t1" })]
      (fun _ => false) 9000 ⟨by decide, by decide⟩ (Or.inr rfl)).1,
   (C3_preferred_reasons [((9000 : Int), { app_name := "svc"
                                           description := "x"
                                           registered_at := "t1" })]
      (fun _ => false) 9000 ⟨by decide, by decide⟩ (Or.inr rfl)).2.1
     { app_name := "svc", description := "x", registered_at := "t1" } rfl,
   (C3_preferred_reasons [((9000 : Int), { app_name := "svc"
                                           description := "x"
                                           registered_at := "t1" })]
      (fun _ => false) 9000 ⟨by decide, by decide⟩ (Or.inr rfl)).2.2 rfl⟩

/-- C4, confirmed.  With no preferred port, `get_free_port` scans the range
`[1024, 49151]` in ascending order: any returned port lies in the range,
is unregistered (hence never a port present in the registry), is
probe-available, and is least among all qualifying ports; the result is a
function of the registry and probe state alone, so it is deterministic;
and the port is null exactly when no port in the range qualifies, in which
case the message is the no-free-port report. -/
theorem C4_scan_ascending (registry : Registry) (probe : Int → Bool) :
    (∀ p : Int, (get_free_port registry probe none).port = some p →
      (p ∈ portRange ∧ registry.lookup p = none ∧ probe p = true) ∧
      (∀ q ∈ portRange, registry.lookup q = none → probe q = true → p ≤ q) ∧
      (get_free_port registry probe none).message =
        "Found available port " ++ toString p) ∧
    ((get_free_port registry probe none).port = none ↔
      ∀ q ∈ portRange, ¬(registry.lookup q = none ∧ probe q = true)) ∧
    ((get_free_port registry probe none).port = none →
      (get_free_port registry probe none).message =
        "No free ports available in range") := by
  have hpred : ∀ x : Int,
      ((List.lookup x registry).isNone && probe x) = true ↔
        (registry.lookup x = none ∧ probe x = true) := by
    intro x
    rw [Bool.and_eq_true, Option.isNone_iff_eq_none]
  cases hfind :
      portRange.find? (fun port => (registry.lookup port).isNone && probe port) with
  | some a =>
      have hres : get_free_port registry probe none =
          { port := some a, message := "Found available port " ++ toString a } := by
        simp only [get_free_port]
        rw [hfind]
      have hsome : ((registry.lookup a).isNone && probe a) = true := by
        have h := List.find?_some hfind
        simpa using h
      have hqa := (hpred a).mp hsome
      have hmem := List.mem_of_find?_eq_some hfind
      refine ⟨?_, ?_, ?_⟩
      · intro p hp
        rw [hres] at hp
        simp only [Option.some.injEq] at hp
        subst hp
        refine ⟨⟨hmem, hqa.1, hqa.2⟩, ?_, by rw [hres]⟩
        intro q hq hqn hqp
        exact find?_min_of_sorted portRange_pairwise hfind q hq
          ((hpred q).mpr ⟨hqn, hqp⟩)
      · rw [hres]
        constructor
        · intro h
          exact absurd h (by simp)
        · intro h
          exact absurd ⟨hqa.1, hqa.2⟩ (h a hmem)
      · intro h
        rw [hres] at h
        exact absurd h (by simp)
  | none =>
      have hres : get_free_port registry probe none =
          { port := none, message := "No free ports available in range" } := by
        simp only [get_free_port]
        rw [hfind]
      have hnone := List.find?_eq_none.mp hfind
      refine ⟨?_, ?_, fun _ => by rw [hres]⟩
      · intro p hp
        rw [hres] at hp
        exact absurd hp (by simp)
      · rw [hres]
        constructor
        · intro _ q hq hcond
          exact hnone q hq ((hpred q).mpr hcond)
        · intro _
          rfl

/-- C4 witness: on the empty registry with every port probe-available, the
scan returns port 1024, the low end of the range. -/
theorem C4_scan_ascending_witness :
    ((1024 : Int) ∈ portRange ∧
      List.lookup (1024 : Int) ([] : Registry) = none ∧
      (fun _ : Int => true) (1024 : Int) = true) ∧
    (get_free_port [] (fun _ => true) none).message =
      "Found available port " ++ toString (1024 : Int) :=
  ⟨((C4_scan_ascending [] (fun _ => true)).1 1024 rfl).1,
   ((C4_scan_ascending [] (fun _ => true)).1 1024 rfl).2.2⟩

/-- C9, confirmed.  `lookup_by_application` echoes the query, returns
exactly the registrations whose `app_name` equals the query under
case-insensitive (`lower()`) exact comparison — with no other
normalization — each annotated with the fresh probe result for its port,
sorted ascending by port number; `count` is the length of that list, and
when nothing matches the list is empty. -/
theorem C9_lookup_by_application (registry : Registry) (probe : Int → Bool)
    (q : String) :
    (lookup_by_application registry probe q).app_name = q ∧
    (lookup_by_application registry probe q).count =
      (lookup_by_application registry probe q).ports.length ∧
    List.Pairwise (fun a b => a.port ≤ b.port)
      (lookup_by_application registry probe q).ports ∧
    (∀ info : PortInfo,
      info ∈ (lookup_by_application registry probe q).ports ↔
        ∃ e ∈ registry, e.2.app_name.toLower = q.toLower ∧
          info = { port := e.1
                   app_name := e.2.app_name
                   description := e.2.description
                   registered_at := e.2.registered_at
                   os_available := probe e.1 }) ∧
    ((∀ e ∈ registry, ¬(e.2.app_name.toLower = q.toLower)) →
      (lookup_by_application registry probe q).ports = []) := by
  have hports : (lookup_by_application registry probe q).ports =
      ((registry.filter (fun e => e.2.app_name.toLower == q.toLower)).map
        (mkPortInfo probe)).mergeSort (fun a b => decide (a.port ≤ b.port)) := rfl
  have hmem : ∀ info : PortInfo,
      info ∈ (lookup_by_application registry probe q).ports ↔
        ∃ e ∈ registry, e.2.app_name.toLower = q.toLower ∧
          info = { port := e.1
                   app_name := e.2.app_name
                   description := e.2.description
                   registered_at := e.2.registered_at
                   os_available := probe e.1 } := by
    intro info
    rw [hports, (List.mergeSort_perm _ _).mem_iff, List.mem_map]
    constructor
    · rintro ⟨e, he, rfl⟩
      rw [List.mem_filter] at he
      exact ⟨e, he.1, by simpa using he.2, rfl⟩
    · rintro ⟨e, he, happ, rfl⟩
      exact ⟨e, List.mem_filter.mpr ⟨he, by simpa using happ⟩, rfl⟩
  refine ⟨rfl, rfl, ?_, hmem, ?_⟩
  · rw [hports]
    have hs := @List.sorted_mergeSort PortInfo
      (fun a b => decide (a.port ≤ b.port))
      (fun a b c hab hbc => by
        simp only [decide_eq_true_eq] at hab hbc ⊢
        exact le_trans hab hbc)
      (fun a b => by
        rcases Int.le_total a.port b.port with h | h
        · simp [h]
        · simp [h])
      ((registry.filter (fun e => e.2.app_name.toLower == q.toLower)).map
        (mkPortInfo probe))
    exact hs.imp (fun h => of_decide_eq_true h)
  · intro hnone
    rw [List.eq_nil_iff_forall_not_mem]
    intro info hinfo
    rcases (hmem info).mp hinfo with ⟨e, he, happ, _⟩
    exact hnone e he happ

/-- C9 witness: port 8080 registered to "web"; the query "web" matches it,
annotated with the fresh probe result.  (The theorem itself states the
match case-insensitively for every query string; `String.toLower` is
defined by well-founded recursion, so a mixed-case instance does not
evaluate by kernel reduction.) -/
theorem C9_lookup_by_application_witness :
    List.Pairwise (fun a b => a.port ≤ b.port)
      (lookup_by_application [((8080 : Int), { app_name := "web"
                                               description := "d"
                                               registered_at := "t" })]
          (fun _ => true) ("web")).ports ∧
    ({ port := (8080 : Int)
       app_name := "web"
       description := "d"
       registered_at := "t"
       os_available := true } : PortInfo) ∈
      (lookup_by_application [((8080 : Int), { app_name := "web"
                                               description := "d"
                                               registered_at := "t" })]
          (fun _ => true) ("web")).ports :=
  ⟨(C9_lookup_by_application [((8080 : Int), { app_name := "web"
                                               description := "d"
                                               registered_at := "t" })]
      (fun _ => true) ("web")).2.2.1,
   ((C9_lookup_by_application [((8080 : Int), { app_name := "web"
                                                description := "d"
                                                registered_at := "t" })]
      (fun _ => true) ("web")).2.2.2.1
      { port := (8080 : Int), app_name := "web", description := "d",
        registered_at := "t", os_available := true }).mpr
    ⟨((8080 : Int), { app_name := "web", description := "d", registered_at := "t" }),
      List.mem_singleton.mpr rfl, rfl, rfl⟩⟩

end McpPortman
